import Mathlib

/-!
Shallow embedding of the clevis core (`src/readers/{span,query,toml,yaml,common}.rs`
and `src/error.rs`).

Modelling conventions:
- the file system is an explicit environment `Env` mapping a path to its content
  (`none` = missing/unreadable file); the external TOML/YAML parsers are
  abstracted as functions of the environment from content to a parsed tree;
- Rust strings are modelled at character granularity (all inputs of interest
  are ASCII, where byte and character indices coincide);
- `panic!` and arithmetic-underflow/slice panics are modelled by the explicit
  `Outcome.panicked` constructor; error payloads that are not observable in any
  claim (io::Error / anyhow sources) are reduced to message strings, with the
  Rust quote character written as an escape.
-/

namespace Clevis

/-- The error enum of `src/error.rs` (`AppError`). The `source` payloads
(`std::io::Error`, `anyhow::Error`) are modelled as message strings. -/
inductive AppError where
  | fileOperation (path : String) (source : String)
  | parse (file_type : String) (path : String) (source : String)
  | keyNotFound (key_path : String) (file_path : String)
  | queryNotFound (query : String) (file_path : String)
  | configError (message : String)
deriving DecidableEq, Repr

/-- Result of running a reader: `ok` / `err` mirror Rust `Result`;
`panicked` models a `panic!` (or an out-of-bounds slice / integer underflow
panic) aborting the call. -/
inductive Outcome (α : Type) where
  | ok (a : α)
  | err (e : AppError)
  | panicked
deriving DecidableEq, Repr

/-- Rust `str::split` on a single char: always at least one piece, adjacent
separators yield empty pieces. -/
def splitOnChar (c : Char) : List Char → List (List Char)
  | [] => [[]]
  | x :: rest =>
    let r := splitOnChar c rest
    if x = c then [] :: r
    else
      match r with
      | h :: t => (x :: h) :: t
      | [] => [[x]]

/-- Strip one trailing carriage return, as Rust `str::lines` does per line. -/
def stripCR (l : List Char) : List Char :=
  if l.getLast? = some '\r' then l.dropLast else l

/-- Rust `str::lines`: split on `\n`, drop the final empty piece produced by a
trailing newline, strip a trailing `\r` from each line; the empty string has no
lines. -/
def rustLines (s : String) : List String :=
  let cs := s.toList
  if cs.isEmpty then []
  else
    let parts := splitOnChar '\n' cs
    let parts := if cs.getLast? = some '\n' then parts.dropLast else parts
    parts.map (fun l => String.mk (stripCR l))

/-- Rust byte-slice `s[a..]` (character granularity). -/
def charDrop (s : String) (a : Nat) : String :=
  String.mk (s.toList.drop a)

/-- Rust byte-slice `s[..b]` (character granularity). -/
def charTake (s : String) (b : Nat) : String :=
  String.mk (s.toList.take b)

/-- Rust byte-slice `s[a..b]` (character granularity, `a ≤ b`). -/
def charSlice (s : String) (a b : Nat) : String :=
  String.mk ((s.toList.drop a).take (b - a))

/-- Rust `str::contains` for a literal needle (substring containment). -/
def strContains (hay needle : String) : Bool :=
  (List.range (hay.length + 1)).any (fun i => needle.toList.isPrefixOf (hay.toList.drop i))

/-- Rust `str::parse::<usize>()`: optional leading `+`, then one or more ASCII
digits, value within the 64-bit range. -/
def parseUsize (s : String) : Option Nat :=
  let cs := s.toList
  let cs := match cs with
    | '+' :: rest => rest
    | l => l
  if cs.isEmpty then none
  else if cs.all (fun c => c.isDigit) then
    let n := cs.foldl (fun acc c => acc * 10 + (c.toNat - 48)) 0
    if n < 18446744073709551616 then some n else none
  else none

/-- Index of the first occurrence of a character in a list, if any. -/
def findCharIdx (c : Char) : List Char → Option Nat
  | [] => none
  | x :: rest => if x = c then some 0 else (findCharIdx c rest).map (· + 1)

/-- Rust `str::find('[')` (character granularity). -/
def findBracket (s : String) : Option Nat :=
  findCharIdx '[' s.toList

/-- `Cursor` of `src/readers/span.rs`: a 1-based (line, column) position. -/
structure Cursor where
  line : Nat
  column : Nat
deriving DecidableEq, Repr

/-- `SpanReader.read` of `src/readers/span.rs`, lines 19–84, applied to the
content obtained from the file (`none` = unreadable, which
`unwrap_or_default()` turns into the empty string). The function never
returns `.err`: every failure in the source is a `panic!`, an integer
underflow (`column = 0` makes `start.column - 1` underflow) or an
out-of-bounds/inverted slice panic, all modelled as `.panicked`. -/
def spanExtract (contentRead : Option String) (s e : Cursor) : Outcome String :=
  let content := contentRead.getD ""
  let lines := rustLines content
  if s.line = 0 ∨ e.line = 0 ∨ s.line > lines.length ∨ e.line > lines.length
      ∨ s.line > e.line then
    .panicked
  else if s.line = e.line then
    let line := lines.getD (s.line - 1) ""
    if s.column > line.length ∨ e.column > line.length then .panicked
    else if s.column = 0 then .panicked
    else if e.column < s.column - 1 then .panicked
    else .ok (charSlice line (s.column - 1) e.column)
  else
    let firstLine := lines.getD (s.line - 1) ""
    if s.column = 0 then .panicked
    else
      let firstPart :=
        if s.column ≤ firstLine.length then charDrop firstLine (s.column - 1) else ""
      let middles := (lines.drop s.line).take (e.line - 1 - s.line)
      let lastLine := lines.getD (e.line - 1) ""
      let lastPart :=
        if e.column ≤ lastLine.length then charTake lastLine e.column else lastLine
      .ok (firstPart ++ "\n" ++ middles.foldl (fun acc l => acc ++ l ++ "\n") "" ++ lastPart)

/-- `QueryReader.read` of `src/readers/query.rs`, lines 11–29, applied to the
content obtained from the file (`none` = unreadable). Both failure paths of
the source are `panic!` calls. -/
def queryExtract (contentRead : Option String) (query : String) : Outcome String :=
  match contentRead with
  | none => .panicked
  | some content =>
    if strContains content query then .ok query else .panicked

/-- The `toml::Value` tree. Floats and datetimes carry their Rust `Display`
form abstractly (no claim inspects float semantics). -/
inductive TomlValue where
  | str (s : String)
  | integer (i : Int)
  | float (display : String)
  | boolean (b : Bool)
  | datetime (display : String)
  | array (items : List TomlValue)
  | table (entries : List (String × TomlValue))

/-- The `saphyr::Yaml` tree (string keys suffice for the embedded claims);
a missing key / indexing a non-mapping yields `BadValue`, modelled as `none`
at lookup sites. -/
inductive YamlValue where
  | str (s : String)
  | int (i : Int)
  | float (display : String)
  | bool (b : Bool)
  | null
  | sequence (items : List YamlValue)
  | mapping (entries : List (String × YamlValue))

/-- Key lookup in a table/mapping (`BTreeMap::get` / `Hash` lookup). -/
def assocGet {α : Type} : List (String × α) → String → Option α
  | [], _ => none
  | (k, v) :: rest, key => if k = key then some v else assocGet rest key

/-- Rust `split('.')` on the key path. -/
def splitDots (s : String) : List String :=
  (splitOnChar '.' s.toList).map String.mk

/-- The path-walking loop of `TomlReader::read`, `src/readers/toml.rs`
lines 27–100: `v` is `current_value`, the final `String` argument is the
accumulated `current_path`. Parse-failure messages from library error types
are modelled as fixed descriptive strings. -/
def tomlNav (fp : String) (v : TomlValue) : List String → String → Outcome TomlValue
  | [], _ => .ok v
  | part :: rest, curPath =>
    let curPath := if curPath.isEmpty then part else curPath ++ "." ++ part
    match findBracket part with
    | some bpos =>
      if part.toList.getLast? = some ']' then
        let keyName := charTake part bpos
        let indexStr := String.mk ((part.toList.drop (bpos + 1)).dropLast)
        match v with
        | .table entries =>
          match assocGet entries keyName with
          | some arrayValue =>
            match arrayValue with
            | .array arr =>
              match parseUsize indexStr with
              | none =>
                .err (.parse "TOML" fp ("invalid array index " ++ indexStr))
              | some index =>
                if h : index < arr.length then
                  tomlNav fp (arr.get ⟨index, h⟩) rest curPath
                else
                  .err (.keyNotFound (keyName ++ "[" ++ toString index ++ "]") fp)
            | _ => .err (.keyNotFound keyName fp)
          | none => .err (.keyNotFound keyName fp)
        | _ => .err (.keyNotFound curPath fp)
      else
        .err (.parse "TOML" fp ("Malformed array index notation \x27" ++ part ++ "\x27"))
    | none =>
      match v with
      | .table entries =>
        match assocGet entries part with
        | some value => tomlNav fp value rest curPath
        | none => .err (.keyNotFound curPath fp)
      | _ => .err (.keyNotFound curPath fp)

/-- The final `match current_value` of `TomlReader::read`, lines 102–116:
stringification of the resolved leaf. -/
def tomlStringify (fp kp : String) : TomlValue → Outcome String
  | .str s => .ok s
  | .integer i => .ok (toString i)
  | .float d => .ok d
  | .boolean b => .ok (if b then "true" else "false")
  | .datetime d => .ok d
  | .array _ => .err (.keyNotFound (kp ++ " (array requires index)") fp)
  | .table _ => .err (.keyNotFound (kp ++ " (table requires key)") fp)

/-- `current_value[key]` in saphyr: a value for a present mapping key,
`BadValue` (here `none`) otherwise. -/
def yamlIndex (v : YamlValue) (key : String) : Option YamlValue :=
  match v with
  | .mapping entries => assocGet entries key
  | _ => none

/-- The path-walking loop of `YamlReader::read`, `src/readers/yaml.rs`
lines 45–99. An unparsable array index flows through `with_context(...)?`
into `From<anyhow::Error> for AppError`, producing `ConfigError` with the
context message. -/
def yamlNav (fp : String) (v : YamlValue) : List String → String → Outcome YamlValue
  | [], _ => .ok v
  | part :: rest, curPath =>
    let curPath := if curPath.isEmpty then part else curPath ++ "." ++ part
    match findBracket part with
    | some bpos =>
      if part.toList.getLast? = some ']' then
        let keyName := charTake part bpos
        let indexStr := String.mk ((part.toList.drop (bpos + 1)).dropLast)
        match yamlIndex v keyName with
        | some (.sequence arr) =>
          match parseUsize indexStr with
          | none =>
            .err (.configError ("Invalid array index \x27" ++ indexStr
              ++ "\x27 in YAML file: " ++ fp))
          | some index =>
            if h : index < arr.length then
              yamlNav fp (arr.get ⟨index, h⟩) rest curPath
            else
              .err (.keyNotFound (keyName ++ "[" ++ toString index ++ "]") fp)
        | _ => .err (.keyNotFound keyName fp)
      else
        .err (.parse "YAML" fp ("Malformed array index notation \x27" ++ part ++ "\x27"))
    | none =>
      match yamlIndex v part with
      | some value => yamlNav fp value rest curPath
      | none => .err (.keyNotFound curPath fp)

/-- The final `if`/`else if` chain of `YamlReader::read`, lines 101–120:
stringification of the resolved leaf (a mapping leaf becomes the literal
placeholder `[Object]`, a sequence leaf is an error). -/
def yamlStringify (fp kp : String) : YamlValue → Outcome String
  | .str s => .ok s
  | .int i => .ok (toString i)
  | .float d => .ok d
  | .bool b => .ok (if b then "true" else "false")
  | .sequence _ => .err (.keyNotFound (kp ++ " (array requires index)") fp)
  | .mapping _ => .ok "[Object]"
  | .null => .ok "null"

/-- The environment: the file system plus the two external parsers
(`toml` crate and `saphyr`), abstracted as content-to-tree functions
(`none` = unreadable file / parse failure respectively). -/
structure Env where
  readFile : String → Option String
  parseToml : String → Option TomlValue
  parseYaml : String → Option (List YamlValue)

/-- `TomlReader` of `src/readers/toml.rs`. -/
structure TomlReader where
  file_path : String
  key_path : String

/-- `TomlReader::read`, lines 14–117: read the file, parse, walk the path,
stringify the leaf. -/
def TomlReader.read (env : Env) (r : TomlReader) : Outcome String :=
  match env.readFile r.file_path with
  | none => .err (.fileOperation r.file_path "io error")
  | some content =>
    match env.parseToml content with
    | none => .err (.parse "TOML" r.file_path "TOML parse error")
    | some parsed =>
      match tomlNav r.file_path parsed (splitDots r.key_path) "" with
      | .ok v => tomlStringify r.file_path r.key_path v
      | .err e => .err e
      | .panicked => .panicked

/-- `YamlReader` of `src/readers/yaml.rs`. -/
structure YamlReader where
  file_path : String
  key_path : String

/-- Lines 21–25 of `yaml.rs`: prepend the `---` document marker when the
content does not already start (after leading whitespace) with one. -/
def yamlWithMarker (content : String) : String :=
  if !(content.trimLeft.startsWith "---") then "---\n" ++ content else content

/-- Lines 34–120 of `yaml.rs`, from the parsed document list onwards: an
empty list is a parse error, otherwise the key path is resolved against
`docs[0]` only. -/
def yamlDocsRead (fp kp : String) (docs : List YamlValue) : Outcome String :=
  match docs with
  | [] => .err (.parse "YAML" fp "No YAML documents found")
  | doc :: _ =>
    match yamlNav fp doc (splitDots kp) "" with
    | .ok v => yamlStringify fp kp v
    | .err e => .err e
    | .panicked => .panicked

/-- `YamlReader::read`, lines 15–121. -/
def YamlReader.read (env : Env) (r : YamlReader) : Outcome String :=
  match env.readFile r.file_path with
  | none => .err (.fileOperation r.file_path "io error")
  | some content =>
    match env.parseYaml (yamlWithMarker content) with
    | none => .err (.parse "YAML" r.file_path "YAML parse error")
    | some docs => yamlDocsRead r.file_path r.key_path docs

/-- `SpanReader` of `src/readers/span.rs`. -/
structure SpanReader where
  file_path : String
  start : Cursor
  «end» : Cursor

/-- `SpanReader::read` through the file system. -/
def SpanReader.read (env : Env) (r : SpanReader) : Outcome String :=
  spanExtract (env.readFile r.file_path) r.start r.«end»

/-- `QueryReader` of `src/readers/query.rs`. -/
structure QueryReader where
  file_path : String
  query : String

/-- `QueryReader::read` through the file system. -/
def QueryReader.read (env : Env) (r : QueryReader) : Outcome String :=
  queryExtract (env.readFile r.file_path) r.query

/-- `Accessor` of `src/readers/common.rs`: the closed union of the four
reader kinds. -/
inductive Accessor where
  | spans (r : SpanReader)
  | toml (r : TomlReader)
  | yaml (r : YamlReader)
  | query (r : QueryReader)

/-- `Accessor::read`, `common.rs` lines 21–28: dispatch to the active
variant. -/
def Accessor.read (env : Env) : Accessor → Outcome String
  | .spans r => r.read env
  | .toml r => r.read env
  | .yaml r => r.read env
  | .query r => r.read env

/-- `Linker` of `src/readers/common.rs`. -/
structure Linker where
  a : Accessor
  b : Accessor

/-- `Linker::check`, `common.rs` lines 41–43:
`Ok(self.a.read()? == self.b.read()?)`; a failure (or panic) of side `a`
returns before side `b` is read. -/
def Linker.check (env : Env) (l : Linker) : Outcome Bool :=
  match l.a.read env with
  | .panicked => .panicked
  | .err e => .err e
  | .ok sa =>
    match l.b.read env with
    | .panicked => .panicked
    | .err e => .err e
    | .ok sb => .ok (sa == sb)

/-! ### Concrete environments used by the theorems below -/

/-- A file system with one readable text file. -/
def envNotes : Env :=
  { readFile := fun p => if p = "notes.txt" then some "abc" else none
    parseToml := fun _ => none
    parseYaml := fun _ => none }

/-- A file system with one two-line text file. -/
def envTwoLines : Env :=
  { readFile := fun p => if p = "two.txt" then some "line 1\nline 2" else none
    parseToml := fun _ => none
    parseYaml := fun _ => none }

/-- A file system with no readable files. -/
def envEmpty : Env :=
  { readFile := fun _ => none
    parseToml := fun _ => none
    parseYaml := fun _ => none }

/-- A TOML document with a composite (table and array) structure under
`server`. -/
def serverTomlDoc : TomlValue :=
  .table [("server", .table [("host", .str "localhost"),
                             ("ports", .array [.integer 80, .integer 443])])]

/-- The environment serving `serverTomlDoc` as `cfg.toml`. -/
def envServerToml : Env :=
  { readFile := fun p => if p = "cfg.toml" then some "server text" else none
    parseToml := fun s => if s = "server text" then some serverTomlDoc else none
    parseYaml := fun _ => none }

/-- A YAML document with a composite (mapping and sequence) structure under
`server`. -/
def serverYamlDoc : YamlValue :=
  .mapping [("server", .mapping [("host", .str "localhost"),
                                 ("ports", .sequence [.int 80, .int 443])])]

/-- The environment serving `serverYamlDoc` as `cfg.yaml`. -/
def envServerYaml : Env :=
  { readFile := fun p => if p = "cfg.yaml" then some "server: stuff" else none
    parseToml := fun _ => none
    parseYaml := fun _ => some [serverYamlDoc] }

/-! ### Claims -/

/-- C1: the claim states that every core read/check operation returns a
success-or-failure outcome and that no input causes a panic. The embedded
code violates this: `QueryReader::read` panics on a missing file and
`SpanReader::read` panics on an out-of-bounds span, and the panic propagates
through `Accessor::read` and `Linker::check` (while the `Reader` trait those
impls claim to satisfy, `common.rs` line 7, declares `read()` returning
`Result<String>`). This theorem evaluates the code at such inputs. -/
theorem span_query_operations_panic :
    QueryReader.read envNotes { file_path := "missing.txt", query := "version" } = .panicked
    ∧ SpanReader.read envNotes
        { file_path := "notes.txt", start := ⟨1, 1⟩, «end» := ⟨2, 1⟩ } = .panicked
    ∧ Accessor.read envNotes
        (.query { file_path := "missing.txt", query := "version" }) = .panicked
    ∧ Linker.check envNotes
        { a := .query { file_path := "missing.txt", query := "version" },
          b := .query { file_path := "notes.txt", query := "abc" } } = .panicked := by
  refine ⟨rfl, rfl, rfl, rfl⟩

/-- C3: the claim states that `SpanReader.read` fails with an
`OutOfRange`-class error on bad bounds and a `FileOperation` error on a
missing file, never panicking and never silently returning a string. The
embedded code instead panics on a zero line, a line beyond the file, an
inverted line order, an over-long column and an inverted column order beyond
one, silently returns `""` when `start.column = end.column + 1`, and panics
(rather than reporting `FileOperation`) on a missing file. -/
theorem spanReader_bad_bounds_panic :
    spanExtract (some "line 1\nline 2") ⟨0, 1⟩ ⟨1, 1⟩ = .panicked
    ∧ spanExtract (some "line 1\nline 2") ⟨1, 1⟩ ⟨0, 1⟩ = .panicked
    ∧ spanExtract (some "line 1\nline 2") ⟨1, 1⟩ ⟨3, 1⟩ = .panicked
    ∧ spanExtract (some "line 1\nline 2") ⟨2, 1⟩ ⟨1, 1⟩ = .panicked
    ∧ spanExtract (some "line 1\nline 2") ⟨1, 1⟩ ⟨1, 7⟩ = .panicked
    ∧ spanExtract (some "line 1\nline 2") ⟨1, 6⟩ ⟨1, 3⟩ = .panicked
    ∧ spanExtract (some "line 1\nline 2") ⟨1, 4⟩ ⟨1, 3⟩ = .ok ""
    ∧ SpanReader.read envTwoLines
        { file_path := "absent.txt", start := ⟨1, 1⟩, «end» := ⟨1, 1⟩ } = .panicked := by
  refine ⟨rfl, rfl, rfl, rfl, rfl, rfl, by decide, rfl⟩

/-- C4: the claim states that `QueryReader.read` fails with a
`QueryNotFound` error when the query is absent. The embedded code does
succeed with the query itself on containment (including the empty query),
but on an absent query it panics instead of returning the `QueryNotFound`
error that `src/error.rs` defines for exactly this case, and it panics on an
unreadable file as well. -/
theorem queryReader_absent_panics :
    queryExtract (some "The needle is hidden here") "needle" = .ok "needle"
    ∧ queryExtract (some "The needle is hidden here") "" = .ok ""
    ∧ queryExtract (some "The needle is hidden here") "missing token" = .panicked
    ∧ QueryReader.read envEmpty { file_path := "gone.txt", query := "anything" } = .panicked := by
  refine ⟨by decide, by decide, by decide, rfl⟩

/-- C2 counterexample: the claim states that for both structured readers a
key path resolving to a composite node fails with a `KeyNotFound`-class
error and is never stringified to an `[Object]` placeholder. The YAML
reader, however, returns the literal string `[Object]` for a mapping leaf
(`yaml.rs` line 115). -/
theorem yaml_mapping_leaf_placeholder :
    YamlReader.read envServerYaml { file_path := "cfg.yaml", key_path := "server" }
      = .ok "[Object]" := by
  decide

/-- C2 amended: for the TOML reader a composite leaf (array or table) always
fails with a `KeyNotFound` error naming the path and the required further
access; for the YAML reader a sequence leaf likewise fails, but a mapping
leaf is stringified to the placeholder string `[Object]` instead of
failing. -/
theorem composite_leaf_stringification :
    (∀ (fp kp : String) (xs : List TomlValue),
      tomlStringify fp kp (.array xs)
        = .err (.keyNotFound (kp ++ " (array requires index)") fp))
    ∧ (∀ (fp kp : String) (entries : List (String × TomlValue)),
      tomlStringify fp kp (.table entries)
        = .err (.keyNotFound (kp ++ " (table requires key)") fp))
    ∧ (∀ (fp kp : String) (xs : List YamlValue),
      yamlStringify fp kp (.sequence xs)
        = .err (.keyNotFound (kp ++ " (array requires index)") fp))
    ∧ (∀ (fp kp : String) (entries : List (String × YamlValue)),
      yamlStringify fp kp (.mapping entries) = .ok "[Object]")
    ∧ TomlReader.read envServerToml { file_path := "cfg.toml", key_path := "server" }
        = .err (.keyNotFound "server (table requires key)" "cfg.toml")
    ∧ TomlReader.read envServerToml { file_path := "cfg.toml", key_path := "server.ports" }
        = .err (.keyNotFound "server.ports (array requires index)" "cfg.toml")
    ∧ YamlReader.read envServerYaml { file_path := "cfg.yaml", key_path := "server.ports" }
        = .err (.keyNotFound "server.ports (array requires index)" "cfg.yaml") := by
  refine ⟨fun fp kp xs => rfl, fun fp kp entries => rfl, fun fp kp xs => rfl,
    fun fp kp entries => rfl, by decide, by decide, by decide⟩

/-- C9: `Linker.check` reads side `a` first; a failing side `a` propagates
its error unchanged, for every side `b` (so side `b` is irrelevant and the
comparison is not attempted, and a failed side is never reported as a
non-match); a failure of side `b` after a successful side `a` propagates
likewise; when both reads succeed the result is the boolean of exact string
equality. -/
theorem linker_check_propagation :
    (∀ (env : Env) (a b : Accessor) (e : AppError),
      Accessor.read env a = .err e → Linker.check env { a := a, b := b } = .err e)
    ∧ (∀ (env : Env) (a b : Accessor) (sa : String) (e : AppError),
      Accessor.read env a = .ok sa → Accessor.read env b = .err e →
      Linker.check env { a := a, b := b } = .err e)
    ∧ (∀ (env : Env) (a b : Accessor) (sa sb : String),
      Accessor.read env a = .ok sa → Accessor.read env b = .ok sb →
      Linker.check env { a := a, b := b } = .ok (sa == sb))
    ∧ (∀ (env : Env) (a b : Accessor) (sa sb : String),
      Accessor.read env a = .ok sa → Accessor.read env b = .ok sb →
      (Linker.check env { a := a, b := b } = .ok true ↔ sa = sb)) := by
  refine ⟨?_, ?_, ?_, ?_⟩
  · intro env a b e ha
    simp [Linker.check, ha]
  · intro env a b sa e ha hb
    simp [Linker.check, ha, hb]
  · intro env a b sa sb ha hb
    simp [Linker.check, ha, hb]
  · intro env a b sa sb ha hb
    simp [Linker.check, ha, hb]

/-- C9 witness: the propagation branch applied at a concrete failing
left-hand accessor (a TOML reader over a missing file). -/
theorem linker_check_propagation_witness :
    Linker.check envEmpty
      { a := .toml { file_path := "x.toml", key_path := "k" },
        b := .query { file_path := "y.txt", query := "q" } }
      = .err (.fileOperation "x.toml" "io error") :=
  linker_check_propagation.1 envEmpty _ _ _ rfl

/-- C10: when the parsed YAML content is a non-empty document list, the key
path is resolved against the first document only (the result is the same as
if only the first document were present, for every tail); when the document
list is empty the read fails with the `Parse`-class error
`No YAML documents found` instead of succeeding or panicking. -/
theorem yaml_first_document_only :
    (∀ (env : Env) (r : YamlReader) (content : String) (d : YamlValue)
        (rest : List YamlValue),
      env.readFile r.file_path = some content →
      env.parseYaml (yamlWithMarker content) = some (d :: rest) →
      YamlReader.read env r = yamlDocsRead r.file_path r.key_path [d])
    ∧ (∀ (env : Env) (r : YamlReader) (content : String),
      env.readFile r.file_path = some content →
      env.parseYaml (yamlWithMarker content) = some [] →
      YamlReader.read env r = .err (.parse "YAML" r.file_path "No YAML documents found")) := by
  constructor
  · intro env r content d rest h1 h2
    simp [YamlReader.read, h1, h2, yamlDocsRead]
  · intro env r content h1 h2
    simp [YamlReader.read, h1, h2, yamlDocsRead]

/-- The environment serving a two-document YAML stream as `multi.yaml`
(the parser result is fixed, so the marker-prepending step is immaterial). -/
def envMultiYaml : Env :=
  { readFile := fun p => if p = "multi.yaml" then some "kind: first\n---\nkind: second" else none
    parseToml := fun _ => none
    parseYaml := fun _ => some [.mapping [("kind", .str "first")],
                                .mapping [("kind", .str "second")]] }

/-- C10 witness: on a two-document stream the read equals the read of the
first document alone (which resolves `kind` to `first`). -/
theorem yaml_first_document_only_witness :
    YamlReader.read envMultiYaml { file_path := "multi.yaml", key_path := "kind" }
      = yamlDocsRead "multi.yaml" "kind" [.mapping [("kind", .str "first")]]
    ∧ yamlDocsRead "multi.yaml" "kind" [.mapping [("kind", .str "first")]] = .ok "first" :=
  ⟨yaml_first_document_only.1 envMultiYaml
      { file_path := "multi.yaml", key_path := "kind" }
      "kind: first\n---\nkind: second"
      (.mapping [("kind", .str "first")]) [.mapping [("kind", .str "second")]] rfl rfl,
    by decide⟩

/-- C6: for a single-line span whose columns are within the line and in
order, the returned value is the character slice `line[start.column - 1 ..
end.column]` (right end inclusive at its 1-based position); in particular
span (2,3)–(2,6) of the four-line demo content yields `ne 2`. -/
theorem spanReader_single_line_slice :
    (∀ (content : String) (s e : Cursor) (line : String),
      s.line = e.line →
      1 ≤ s.line →
      s.line ≤ (rustLines content).length →
      (rustLines content).getD (s.line - 1) "" = line →
      1 ≤ s.column → s.column ≤ e.column → e.column ≤ line.length →
      spanExtract (some content) s e = .ok (charSlice line (s.column - 1) e.column))
    ∧ spanExtract (some "line 1\nline 2\nline 3\nline 4") ⟨2, 3⟩ ⟨2, 6⟩ = .ok "ne 2" := by
  constructor
  · intro content s e line heq h1 h2 hline hc1 hc12 hc2
    have hne : ¬(s.line = 0 ∨ e.line = 0 ∨ s.line > (rustLines content).length
        ∨ e.line > (rustLines content).length ∨ s.line > e.line) := by omega
    unfold spanExtract
    simp only [Option.getD_some]
    rw [if_neg hne, if_pos heq, hline]
    rw [if_neg (by omega : ¬(s.column > line.length ∨ e.column > line.length))]
    rw [if_neg (by omega : ¬ s.column = 0)]
    rw [if_neg (by omega : ¬ e.column < s.column - 1)]
  · decide

/-- C6 witness: the single-line slice theorem applied to line 2 of
`ab\ncdef`, columns 2 through 4. -/
theorem spanReader_single_line_slice_witness :
    spanExtract (some "ab\ncdef") ⟨2, 2⟩ ⟨2, 4⟩ = .ok "def" :=
  spanReader_single_line_slice.1 "ab\ncdef" ⟨2, 2⟩ ⟨2, 4⟩ "cdef" rfl (by decide)
    (by decide) rfl (by decide) (by decide) (by decide)

/-- Pulling the accumulator out of the middle-lines fold of
`SpanReader::read`. -/
theorem foldl_append_acc (ms : List String) (acc : String) :
    ms.foldl (fun a m => a ++ m ++ "\n") acc
      = acc ++ ms.foldl (fun a m => a ++ m ++ "\n") "" := by
  induction ms generalizing acc with
  | nil => simp [String.append_empty]
  | cons m ms ih =>
    simp only [List.foldl_cons]
    rw [ih (acc ++ m ++ "\n"), ih ("" ++ m ++ "\n")]
    simp [String.empty_append, String.append_assoc]

/-- The accumulator loop of `String.intercalate` on a list with a last
element, against the fold of `SpanReader::read`. -/
theorem intercalate_go_concat (ms : List String) (acc l : String) :
    String.intercalate.go acc "\n" (ms ++ [l])
      = acc ++ "\n" ++ ms.foldl (fun a m => a ++ m ++ "\n") "" ++ l := by
  induction ms generalizing acc with
  | nil => simp [String.intercalate.go, String.append_empty]
  | cons m ms ih =>
    simp only [List.cons_append, String.intercalate.go, List.foldl_cons, List.append_eq]
    rw [ih (acc ++ "\n" ++ m), foldl_append_acc ms ("" ++ m ++ "\n")]
    simp [String.empty_append, String.append_assoc]

/-- `String.intercalate "\n"` over first element, middle block and last
element equals the string built by the span reader's push loop. -/
theorem intercalate_cons_concat (f l : String) (ms : List String) :
    String.intercalate "\n" (f :: (ms ++ [l]))
      = f ++ "\n" ++ ms.foldl (fun a m => a ++ m ++ "\n") "" ++ l := by
  simp only [String.intercalate]
  exact intercalate_go_concat ms f l

/-- C7: for a multi-line span with valid line bounds and a positive start
column, the result is the `\n`-join of: the first line from `start.column`
(empty when `start.column` exceeds that line's length), every middle line,
and the last line up to `end.column` (clamped to the whole line when
over-long); in particular span (2,3)–(3,4) of the four-line demo content
yields `ne 2\nline`. -/
theorem spanReader_multi_line_join :
    (∀ (content : String) (s e : Cursor) (first lastLine : String),
      s.line < e.line →
      1 ≤ s.line →
      e.line ≤ (rustLines content).length →
      1 ≤ s.column →
      (rustLines content).getD (s.line - 1) "" = first →
      (rustLines content).getD (e.line - 1) "" = lastLine →
      spanExtract (some content) s e
        = .ok (String.intercalate "\n"
            ((if s.column ≤ first.length then charDrop first (s.column - 1) else "")
              :: (((rustLines content).drop s.line).take (e.line - 1 - s.line)
                ++ [if e.column ≤ lastLine.length then charTake lastLine e.column
                    else lastLine]))))
    ∧ spanExtract (some "line 1\nline 2\nline 3\nline 4") ⟨2, 3⟩ ⟨3, 4⟩
        = .ok "ne 2\nline" := by
  constructor
  · intro content s e first lastLine hlt h1 h2 hc1 hfirst hlast
    have hne : ¬(s.line = 0 ∨ e.line = 0 ∨ s.line > (rustLines content).length
        ∨ e.line > (rustLines content).length ∨ s.line > e.line) := by omega
    unfold spanExtract
    simp only [Option.getD_some]
    rw [if_neg hne, if_neg (by omega : ¬ s.line = e.line),
      if_neg (by omega : ¬ s.column = 0), hfirst, hlast]
    rw [intercalate_cons_concat]
  · decide

/-- C7 witness: the multi-line theorem applied to the span (1,2)–(4,1) of a
four-line file, which keeps two middle lines whole and clips both ends. -/
theorem spanReader_multi_line_join_witness :
    spanExtract (some "aa\nbb\ncc\ndd") ⟨1, 2⟩ ⟨4, 1⟩ = .ok "a\nbb\ncc\nd" :=
  spanReader_multi_line_join.1 "aa\nbb\ncc\ndd" ⟨1, 2⟩ ⟨4, 1⟩ "aa" "dd"
    (by decide) (by decide) (by decide) (by decide) rfl rfl

/-- The TOML document `arrays.numbers = [1, 2, 3, 4, 5]`. -/
def arraysTomlDoc : TomlValue :=
  .table [("arrays", .table [("numbers",
    .array [.integer 1, .integer 2, .integer 3, .integer 4, .integer 5])])]

/-- The YAML document `arrays: numbers: [1, 2, 3, 4, 5]`. -/
def arraysYamlDoc : YamlValue :=
  .mapping [("arrays", .mapping [("numbers",
    .sequence [.int 1, .int 2, .int 3, .int 4, .int 5])])]

/-- The environment serving the two array documents. -/
def envArrays : Env :=
  { readFile := fun p =>
      if p = "data.toml" then some "arrays toml text"
      else if p = "data.yaml" then some "arrays yaml text"
      else none
    parseToml := fun s => if s = "arrays toml text" then some arraysTomlDoc else none
    parseYaml := fun _ => some [arraysYamlDoc] }

/-- Character decomposition of a `numbers[i]` path segment. -/
theorem seg_toList (idxStr : String) :
    ("numbers[" ++ idxStr ++ "]").toList
      = 'n' :: 'u' :: 'm' :: 'b' :: 'e' :: 'r' :: 's' :: '[' :: (idxStr.toList ++ [']']) := by
  have h : ("numbers[" ++ idxStr ++ "]").toList
      = "numbers[".toList ++ idxStr.toList ++ "]".toList := by
    simp [String.toList, String.data_append]
  rw [h]
  rfl

/-- A `numbers[i]` segment always ends in `]`. -/
theorem seg_getLast (idxStr : String) :
    ("numbers[" ++ idxStr ++ "]").toList.getLast? = some ']' := by
  have h : ("numbers[" ++ idxStr ++ "]").toList
      = ("numbers[" ++ idxStr).toList ++ [']'] := rfl
  rw [h, List.getLast?_concat]

/-- The first `[` of a `numbers[i]` segment is at index 7, whatever the
index text contains. -/
theorem seg_findBracket (idxStr : String) :
    findBracket ("numbers[" ++ idxStr ++ "]") = some 7 := by
  rw [findBracket, seg_toList]
  simp [findCharIdx]

/-- The key part of a `numbers[i]` segment. -/
theorem seg_keyName (idxStr : String) :
    charTake ("numbers[" ++ idxStr ++ "]") 7 = "numbers" := by
  rw [charTake, seg_toList]
  rfl

/-- The index part of a `numbers[i]` segment. -/
theorem seg_indexStr (idxStr : String) :
    String.mk ((("numbers[" ++ idxStr ++ "]").toList.drop (7 + 1)).dropLast) = idxStr := by
  rw [seg_toList]
  show String.mk ((idxStr.toList ++ [']']).dropLast) = idxStr
  rw [List.dropLast_concat]
  rfl

/-- C5 counterexample: the claim states that a bracket index that is not a
valid non-negative integer fails with a `KeyNotFound`-class error. On
`arrays.numbers[oops]` the TOML reader instead returns a `Parse`-class
error (from `usize` parsing) and the YAML reader a `ConfigError` (via the
`anyhow` context conversion) — neither is `KeyNotFound`, and the two readers
do not even agree with each other. -/
theorem array_index_invalid_counterexample :
    TomlReader.read envArrays { file_path := "data.toml", key_path := "arrays.numbers[oops]" }
      = .err (.parse "TOML" "data.toml" "invalid array index oops")
    ∧ YamlReader.read envArrays { file_path := "data.yaml", key_path := "arrays.numbers[oops]" }
      = .err (.configError "Invalid array index \x27oops\x27 in YAML file: data.yaml") := by
  refine ⟨by decide, by decide⟩

/-- C5 amended: for the document `arrays.numbers = [1,2,3,4,5]`,
`arrays.numbers[0]` resolves to `1`, `arrays.numbers[4]` to `5` and
`arrays.numbers[5]` fails with `KeyNotFound`, identically for the TOML and
YAML readers; a bracket index that is not a valid non-negative integer
fails with a `Parse`-class error in the TOML reader and a `ConfigError` in
the YAML reader (an error outcome, but not `KeyNotFound`). -/
theorem array_index_resolution :
    TomlReader.read envArrays { file_path := "data.toml", key_path := "arrays.numbers[0]" }
      = .ok "1"
    ∧ TomlReader.read envArrays { file_path := "data.toml", key_path := "arrays.numbers[4]" }
      = .ok "5"
    ∧ TomlReader.read envArrays { file_path := "data.toml", key_path := "arrays.numbers[5]" }
      = .err (.keyNotFound "numbers[5]" "data.toml")
    ∧ YamlReader.read envArrays { file_path := "data.yaml", key_path := "arrays.numbers[0]" }
      = .ok "1"
    ∧ YamlReader.read envArrays { file_path := "data.yaml", key_path := "arrays.numbers[4]" }
      = .ok "5"
    ∧ YamlReader.read envArrays { file_path := "data.yaml", key_path := "arrays.numbers[5]" }
      = .err (.keyNotFound "numbers[5]" "data.yaml")
    ∧ (∀ idxStr : String, parseUsize idxStr = none →
      tomlNav "data.toml" arraysTomlDoc ["arrays", "numbers[" ++ idxStr ++ "]"] ""
        = .err (.parse "TOML" "data.toml" ("invalid array index " ++ idxStr))
      ∧ yamlNav "data.yaml" arraysYamlDoc ["arrays", "numbers[" ++ idxStr ++ "]"] ""
        = .err (.configError ("Invalid array index \x27" ++ idxStr
            ++ "\x27 in YAML file: data.yaml"))) := by
  refine ⟨by decide, by decide, by decide, by decide, by decide, by decide, ?_⟩
  intro idxStr h
  constructor
  · have step1 : tomlNav "data.toml" arraysTomlDoc ["arrays", "numbers[" ++ idxStr ++ "]"] ""
        = tomlNav "data.toml"
            (.table [("numbers",
              .array [.integer 1, .integer 2, .integer 3, .integer 4, .integer 5])])
            ["numbers[" ++ idxStr ++ "]"] "arrays" := rfl
    rw [step1]
    simp only [tomlNav, seg_findBracket, seg_getLast, seg_keyName, seg_indexStr, h]
    simp [assocGet]
  · have step1 : yamlNav "data.yaml" arraysYamlDoc ["arrays", "numbers[" ++ idxStr ++ "]"] ""
        = yamlNav "data.yaml"
            (.mapping [("numbers",
              .sequence [.int 1, .int 2, .int 3, .int 4, .int 5])])
            ["numbers[" ++ idxStr ++ "]"] "arrays" := rfl
    rw [step1]
    simp only [yamlNav, seg_findBracket, seg_getLast, seg_keyName, seg_indexStr, h]
    simp [yamlIndex, assocGet, String.append_assoc]

/-- C5 witness: the invalid-index branch of the resolution theorem applied
to the concrete non-numeric index `x`. -/
theorem array_index_resolution_witness :
    tomlNav "data.toml" arraysTomlDoc ["arrays", "numbers[" ++ "x" ++ "]"] ""
      = .err (.parse "TOML" "data.toml" ("invalid array index " ++ "x"))
    ∧ yamlNav "data.yaml" arraysYamlDoc ["arrays", "numbers[" ++ "x" ++ "]"] ""
      = .err (.configError ("Invalid array index \x27" ++ "x"
          ++ "\x27 in YAML file: data.yaml")) :=
  array_index_resolution.2.2.2.2.2.2 "x" (by decide)

/-- C8: whenever the TOML side parses to a table with `server.port = 8080`
and the YAML side parses to a document stream whose first document is a
mapping with `server.port: 8080`, both readers stringify the integer leaf
to `8080` and `Linker.check` on the pair returns `true`. -/
theorem cross_format_server_port_match :
    ∀ (env : Env) (ra : TomlReader) (rb : YamlReader) (ca cb : String)
      (ta ts : List (String × TomlValue)) (ya ys : List (String × YamlValue))
      (docs : List YamlValue),
      ra.key_path = "server.port" →
      rb.key_path = "server.port" →
      env.readFile ra.file_path = some ca →
      env.parseToml ca = some (.table ta) →
      assocGet ta "server" = some (.table ts) →
      assocGet ts "port" = some (.integer 8080) →
      env.readFile rb.file_path = some cb →
      env.parseYaml (yamlWithMarker cb) = some (.mapping ya :: docs) →
      assocGet ya "server" = some (.mapping ys) →
      assocGet ys "port" = some (.int 8080) →
      TomlReader.read env ra = .ok "8080"
      ∧ YamlReader.read env rb = .ok "8080"
      ∧ Linker.check env { a := .toml ra, b := .yaml rb } = .ok true := by
  intro env ra rb ca cb ta ts ya ys docs hka hkb hfa hpa hsa hpa2 hfb hpb hsb hpb2
  have hsplit : splitDots "server.port" = ["server", "port"] := rfl
  have hnb1 : findBracket "server" = none := rfl
  have hnb2 : findBracket "port" = none := rfl
  have htoml : TomlReader.read env ra = .ok "8080" := by
    simp only [TomlReader.read, hfa, hpa, hka, hsplit]
    simp only [tomlNav, hnb1, hnb2, hsa, hpa2]
    simp only [tomlStringify]
    rfl
  have hyaml : YamlReader.read env rb = .ok "8080" := by
    simp only [YamlReader.read, hfb, hpb, hkb, yamlDocsRead, hsplit]
    simp only [yamlNav, hnb1, hnb2, yamlIndex, hsb, hpb2]
    simp only [yamlStringify]
    rfl
  refine ⟨htoml, hyaml, ?_⟩
  simp [Linker.check, Accessor.read, htoml, hyaml]

/-- The environment serving a TOML file and a YAML file that agree on
`server.port = 8080`. -/
def envPorts : Env :=
  { readFile := fun p =>
      if p = "app.toml" then some "port toml text"
      else if p = "app.yaml" then some "port yaml text"
      else none
    parseToml := fun s =>
      if s = "port toml text" then
        some (.table [("server", .table [("port", .integer 8080)])])
      else none
    parseYaml := fun _ => some [.mapping [("server", .mapping [("port", .int 8080)])]] }

/-- C8 witness: the cross-format theorem applied to a concrete TOML/YAML
pair that agree on `server.port = 8080`. -/
theorem cross_format_server_port_match_witness :
    TomlReader.read envPorts { file_path := "app.toml", key_path := "server.port" }
      = .ok "8080"
    ∧ YamlReader.read envPorts { file_path := "app.yaml", key_path := "server.port" }
      = .ok "8080"
    ∧ Linker.check envPorts
        { a := .toml { file_path := "app.toml", key_path := "server.port" },
          b := .yaml { file_path := "app.yaml", key_path := "server.port" } }
      = .ok true :=
  cross_format_server_port_match envPorts
    { file_path := "app.toml", key_path := "server.port" }
    { file_path := "app.yaml", key_path := "server.port" }
    "port toml text" "port yaml text"
    [("server", .table [("port", .integer 8080)])] [("port", .integer 8080)]
    [("server", .mapping [("port", .int 8080)])] [("port", .int 8080)]
    [] rfl rfl rfl rfl rfl rfl rfl rfl rfl rfl

end Clevis
